import Mathlib

/-!
Shallow embedding of the salez backend core: the keyword deal classifier and
follow-up scheduler (src/services/followup.service.ts), the automation rule
engine (automation executor in src/services/campaign.executor.ts), and the
WhatsApp send wrappers they call (whatsapp.service.ts).  Database tables are
lists of rows inside a single state record; each service method becomes a
state-transforming function.  Fallible operations return Except.
-/

/-- A single-quote character, used to build keyword strings that contain one. -/
def apoS : String := String.mk [Char.ofNat 39]

/-- JS regex word character class: ASCII letters, digits, underscore. -/
def isWordChar (c : Char) : Bool := c.isAlphanum || c == '_'

/-- Wordness of an optional character; out-of-string positions count as non-word. -/
def wordish : Option Char → Bool
  | none => false
  | some c => isWordChar c

/-- Case-insensitive character comparison, as the regex i flag gives on ASCII. -/
def charIEq (a b : Char) : Bool := a.toLower == b.toLower

/-- The keyword regex test at one position: the keyword matches the content
case-insensitively starting at index i, with a word boundary on both sides,
embedding the JS test of new RegExp("\\b" + keyword + "\\b", "i"). -/
def matchesAt (cs kw : List Char) (i : Nat) : Bool :=
  let seg := (cs.drop i).take kw.length
  let left : Option Char := if i == 0 then none else cs.get? (i - 1)
  seg.length == kw.length
    && (seg.zip kw).all (fun p => charIEq p.1 p.2)
    && (wordish left != wordish (cs.get? i))
    && (wordish (cs.get? (i + kw.length - 1)) != wordish (cs.get? (i + kw.length)))

/-- The keyword regex matches somewhere in the content. -/
def containsKeyword (cs kw : List Char) : Bool :=
  (List.range (cs.length + 1)).any (fun i => matchesAt cs kw i)

/-- containsKeywords from followup.service.ts: some keyword of the list matches
the content under the word-boundary, case-insensitive regex test. -/
def containsKeywords (content : String) (keywords : List String) : Bool :=
  keywords.any (fun kw => containsKeyword content.data kw.data)

/-- dealClosedKeywords from followup.service.ts. -/
def dealClosedKeywords : List String :=
  ["yes", "sure", "confirmed", "deal", "agreed", "accept", "buy", "purchase",
   "order", "booking", "book", "reserve", "confirm", "go ahead", "proceed",
   "perfect", "great", "sounds good", "count me in", "i" ++ apoS ++ "m in"]

/-- dealLostKeywords from followup.service.ts. -/
def dealLostKeywords : List String :=
  ["no thanks", "not interested", "no", "cancel", "nevermind", "never mind",
   "too expensive", "expensive", "can" ++ apoS ++ "t afford", "not now",
   "maybe later", "not for me", "pass", "decline", "reject"]

/-- needsFollowUpKeywords from followup.service.ts. -/
def needsFollowUpKeywords : List String :=
  ["thinking", "maybe", "consider", "let me think", "not sure", "hmm",
   "i" ++ apoS ++ "ll let you know", "get back to you", "discuss", "check", "see"]

/-- Result of the deal classifier. -/
inductive DealStatus
  | Won
  | Lost
  | NeedsFollowUp
  | Neutral
  deriving DecidableEq, Repr

/-- JS toLowerCase on ASCII content: lowercase every character. -/
def jsToLower (s : String) : String := String.mk (s.data.map Char.toLower)

/-- The classification chain of analyzeMessageForDealStatus: the content is
lowercased, then the three keyword sets are tested in priority order. -/
def classify (text : String) : DealStatus :=
  let content := jsToLower text
  if containsKeywords content dealClosedKeywords then DealStatus.Won
  else if containsKeywords content dealLostKeywords then DealStatus.Lost
  else if containsKeywords content needsFollowUpKeywords then DealStatus.NeedsFollowUp
  else DealStatus.Neutral

/-- A JSON-shaped value appearing in trigger payloads, rule conditions and
stored rows. -/
inductive Value
  | vStr (s : String)
  | vInt (n : Int)
  | vBool (b : Bool)
  | vNull
  deriving DecidableEq, Repr

/-- One entry of a rule condition object: either a literal value or a
structured comparator with an operator name and a comparison value. -/
inductive CondSpec
  | lit (v : Value)
  | cmp (op : String) (value : Value)
  deriving DecidableEq, Repr

/-- The action field of an automation rule, by action.type. -/
inductive RuleAction
  | sendMessage (message : String)
  | sendTemplate (templateId : Int)
  | updateStage (stage : String)
  | addTag (tag : String)
  | other (typeName : String)
  deriving DecidableEq, Repr

/-- A row of the contacts table (the fields the core reads and writes). -/
structure Contact where
  id : Int
  businessId : Int
  phone : String
  name : Option String
  stage : String
  deriving DecidableEq, Repr

/-- A row of the messages table. -/
structure Msg where
  id : Int
  businessId : Int
  contactId : Int
  content : String
  direction : String
  deriving DecidableEq, Repr

/-- A row of the contact_tags table. -/
structure TagRow where
  businessId : Int
  contactId : Int
  tag : String
  deriving DecidableEq, Repr

/-- A row of the pipeline_history table. -/
structure HistRow where
  businessId : Int
  contactId : Int
  fromStage : String
  toStage : String
  deriving DecidableEq, Repr

/-- A row of the automation_rules table, with condition and action decoded
from their JSON columns. -/
structure AutomationRule where
  id : Int
  businessId : Int
  trigger : String
  condition : List (String × CondSpec)
  action : RuleAction
  delayMinutes : Nat
  deriving DecidableEq, Repr

/-- A row of the message_templates table (the part used by template sends). -/
structure TemplateRow where
  id : Int
  businessId : Int
  name : String
  deriving DecidableEq, Repr

/-- A row of the automation_logs table. -/
structure LogRow where
  ruleId : Int
  contactId : Option Int
  status : String
  triggerData : List (String × Value)
  errorMessage : Option String
  deriving DecidableEq, Repr

/-- The database state the core mutates; serial id counters model the
auto-increment primary keys the inserts rely on. -/
structure St where
  contacts : List Contact
  messages : List Msg
  contactTags : List TagRow
  pipelineHistory : List HistRow
  automationRules : List AutomationRule
  automationLogs : List LogRow
  messageTemplates : List TemplateRow
  nextRuleId : Int
  nextMessageId : Int
  deriving DecidableEq, Repr

/-- An entry of the built-in follow-up rule table. -/
structure FollowUpRule where
  stage : String
  hoursAfterLastMessage : Nat
  messageTemplate : String
  maxFollowUps : Nat
  deriving DecidableEq, Repr

/-- followUpRules from followup.service.ts: the built-in stage table. -/
def followUpRules : List FollowUpRule :=
  [ { stage := "New", hoursAfterLastMessage := 24,
      messageTemplate := "Hi {name}! Just following up on our conversation. Is there anything I can help you with?",
      maxFollowUps := 3 },
    { stage := "Contacted", hoursAfterLastMessage := 48,
      messageTemplate := "Hello {name}! I wanted to check if you had a chance to think about our offer?",
      maxFollowUps := 2 },
    { stage := "Qualified", hoursAfterLastMessage := 24,
      messageTemplate := "Hi {name}! Just checking in. Do you have any questions about moving forward?",
      maxFollowUps := 3 },
    { stage := "Proposal", hoursAfterLastMessage := 12,
      messageTemplate := "Hi {name}! Have you had a chance to review the proposal I sent?",
      maxFollowUps := 4 },
    { stage := "Negotiation", hoursAfterLastMessage := 6,
      messageTemplate := "Hello {name}! Let" ++ apoS ++ "s finalize the details. When would be a good time to discuss?",
      maxFollowUps := 5 } ]

/-- Replace the first occurrence of a pattern, the semantics of the JS
String.prototype.replace call with a string pattern. -/
def replaceFirstAux (pat repl : List Char) : List Char → List Char
  | [] => []
  | c :: rest =>
      if pat.isPrefixOf (c :: rest) then repl ++ (c :: rest).drop pat.length
      else c :: replaceFirstAux pat repl rest

/-- JS template.replace(pat, repl) on strings. -/
def jsReplaceOnce (s pat repl : String) : String :=
  String.mk (replaceFirstAux pat.data repl.data s.data)

/-- updateContactStage from followup.service.ts: set the stage of the contact
and append a pipeline_history row. -/
def updateContactStage (contactId businessId : Int) (fromStage toStage : String)
    (s : St) : St :=
  { s with
    contacts := s.contacts.map (fun c =>
      if c.id == contactId then { c with stage := toStage } else c),
    pipelineHistory := s.pipelineHistory ++
      [{ businessId := businessId, contactId := contactId,
         fromStage := fromStage, toStage := toStage }] }

/-- addContactTag from followup.service.ts: insert the tag row unless a row
with the same contact and tag already exists. -/
def addContactTag (contactId businessId : Int) (tag : String) (s : St) : St :=
  if s.contactTags.any (fun r => r.contactId == contactId && r.tag == tag) then s
  else
    { s with contactTags := s.contactTags ++
        [{ businessId := businessId, contactId := contactId, tag := tag }] }

/-- scheduleFollowUp from followup.service.ts: look up the contact, find the
follow-up rule for its stage, and insert a one-shot scheduled_followup
automation rule; no-op when the contact or the rule is missing. -/
def scheduleFollowUp (contactId businessId : Int) (s : St) : St :=
  match s.contacts.find? (fun c => c.id == contactId) with
  | none => s
  | some contact =>
    match followUpRules.find? (fun r => r.stage == contact.stage) with
    | none => s
    | some rule =>
      { s with
        automationRules := s.automationRules ++
          [{ id := s.nextRuleId, businessId := businessId,
             trigger := "scheduled_followup",
             condition := [("contact_id", CondSpec.lit (Value.vInt contactId))],
             action := RuleAction.sendMessage
               (jsReplaceOnce rule.messageTemplate "{name}" (contact.name.getD "there")),
             delayMinutes := rule.hoursAfterLastMessage * 60 }],
        nextRuleId := s.nextRuleId + 1 }

/-- The join query at the start of analyzeMessageForDealStatus: the message
row with its contact row; none when either is missing. -/
def joinLookup (s : St) (messageId : Int) : Option (Msg × Contact) :=
  match s.messages.find? (fun m => m.id == messageId) with
  | none => none
  | some m =>
    match s.contacts.find? (fun c => c.id == m.contactId) with
    | none => none
    | some c => some (m, c)

/-- analyzeMessageForDealStatus from followup.service.ts: classify the inbound
message, update stage and tag accordingly, and schedule a follow-up whenever
the detected new stage is neither Won nor Lost. -/
def analyzeMessage (s : St) (messageId : Int) : St :=
  match joinLookup s messageId with
  | none => s
  | some (m, c) =>
    if m.direction == "outbound" then s
    else
      let status := classify m.content
      let newStage : Option String :=
        match status with
        | DealStatus.Won => some "Won"
        | DealStatus.Lost => some "Lost"
        | _ => none
      let tagToAdd : Option String :=
        match status with
        | DealStatus.Won => some "deal-closed"
        | DealStatus.Lost => some "deal-lost"
        | DealStatus.NeedsFollowUp => some "needs-followup"
        | DealStatus.Neutral => none
      let s1 :=
        match newStage with
        | some ns => updateContactStage c.id c.businessId c.stage ns s
        | none => s
      let s2 :=
        match tagToAdd with
        | some t => addContactTag c.id c.businessId t s1
        | none => s1
      if newStage != some "Won" && newStage != some "Lost" then
        scheduleFollowUp c.id c.businessId s2
      else s2

def demoState : St :=
  { contacts := [{ id := 1, businessId := 1, phone := "15550001", name := some "Bob", stage := "Qualified" }],
    messages := [{ id := 10, businessId := 1, contactId := 1, content := "I need to think about it", direction := "inbound" }],
    contactTags := [], pipelineHistory := [], automationRules := [],
    automationLogs := [], messageTemplates := [], nextRuleId := 100, nextMessageId := 50 }

/-- A trigger event payload: the keyed data object passed to dispatch. -/
abbrev Payload := List (String × Value)

/-- JS property read data[key]; none models undefined. -/
def jsGet (data : Payload) (key : String) : Option Value :=
  (data.find? (fun p => p.1 == key)).map Prod.snd

/-- JS String() coercion on a possibly-undefined value. -/
def jsToString : Option Value → String
  | none => "undefined"
  | some (Value.vStr s) => s
  | some (Value.vInt n) => toString n
  | some (Value.vBool b) => if b then "true" else "false"
  | some Value.vNull => "null"

/-- Numeric value of a digit list. -/
def digitsVal (cs : List Char) : Nat :=
  cs.foldl (fun a c => a * 10 + (c.toNat - 48)) 0

/-- JS Number() on a string: empty gives 0, an optionally signed digit string
gives its value, anything else gives NaN (none). -/
def jsParseNum (s : String) : Option Int :=
  match s.data with
  | [] => some 0
  | c :: rest =>
    if c == '-' then
      if !rest.isEmpty && rest.all (fun d => d.isDigit) then
        some (-(Int.ofNat (digitsVal rest)))
      else none
    else if (c :: rest).all (fun d => d.isDigit) then
      some (Int.ofNat (digitsVal (c :: rest)))
    else none

/-- JS Number() coercion; none models NaN. -/
def jsToNumber : Option Value → Option Int
  | none => none
  | some (Value.vStr s) => jsParseNum s
  | some (Value.vInt n) => some n
  | some (Value.vBool b) => some (if b then 1 else 0)
  | some Value.vNull => some 0

/-- JS numeric comparison a <= b; any NaN side makes it false. -/
def jsLe : Option Int → Option Int → Bool
  | some a, some b => decide (a ≤ b)
  | _, _ => false

/-- JS numeric comparison a >= b; any NaN side makes it false. -/
def jsGe : Option Int → Option Int → Bool
  | some a, some b => decide (b ≤ a)
  | _, _ => false

/-- Substring test over character lists. -/
def hasInfix (needle : List Char) : List Char → Bool
  | [] => needle.isEmpty
  | c :: rest => needle.isPrefixOf (c :: rest) || hasInfix needle rest

/-- JS hay.includes(needle). -/
def jsIncludes (hay needle : String) : Bool := hasInfix needle.data hay.data

/-- JS truthiness of a possibly-undefined value. -/
def jsTruthy : Option Value → Bool
  | none => false
  | some (Value.vStr s) => !s.isEmpty
  | some (Value.vInt n) => n != 0
  | some (Value.vBool b) => b
  | some Value.vNull => false

/-- One key of evaluateCondition from the automation executor: a literal is a
strict equality check; a comparator dispatches on its operator name, an
unrecognized operator failing the key with a logged warning. -/
def keyMatches (data : Payload) (key : String) (spec : CondSpec) : Bool :=
  let actual := jsGet data key
  match spec with
  | CondSpec.lit v => actual == some v
  | CondSpec.cmp op v =>
    if op == "equals" then actual == some v
    else if op == "not_equals" then actual != some v
    else if op == "contains" then jsIncludes (jsToString actual) (jsToString (some v))
    else if op == "greater_than" then !(jsLe (jsToNumber actual) (jsToNumber (some v)))
    else if op == "less_than" then !(jsGe (jsToNumber actual) (jsToNumber (some v)))
    else false

/-- evaluateCondition from the automation executor: an empty condition always
matches; otherwise every listed key must match. -/
def evaluateCondition (cond : List (String × CondSpec)) (data : Payload) : Bool :=
  if cond.isEmpty then true
  else cond.all (fun kv => keyMatches data kv.1 kv.2)

/-- Environment for outbound sends: whether the messaging provider accepts a
send for a business and phone. -/
structure SendEnv where
  sendOk : Int → String → Bool

/-- data.contact_id after the falsy guard the contact-scoped actions apply. -/
def getCid (data : Payload) : Option Int :=
  match jsGet data "contact_id" with
  | some (Value.vInt n) => if n == 0 then none else some n
  | _ => none

/-- The exported sendMessage wrapper of whatsapp.service.ts: send via the
provider, then find the contact by phone and append an outbound message row;
a provider failure or missing contact raises. -/
def sendMessageWrapper (env : SendEnv) (businessId : Int) (phone content : String)
    (s : St) : Except String St :=
  if env.sendOk businessId phone then
    match s.contacts.find? (fun c => c.businessId == businessId && c.phone == phone) with
    | none => Except.error "Contact not found"
    | some c =>
      Except.ok { s with
        messages := s.messages ++
          [{ id := s.nextMessageId, businessId := businessId, contactId := c.id,
             content := content, direction := "outbound" }],
        nextMessageId := s.nextMessageId + 1 }
  else Except.error "Failed to send message"

/-- The exported sendTemplateMessage wrapper of whatsapp.service.ts. -/
def sendTemplateWrapper (env : SendEnv) (businessId : Int) (phone : String)
    (templateId : Int) (s : St) : Except String St :=
  match s.messageTemplates.find? (fun t => t.id == templateId && t.businessId == businessId) with
  | none => Except.error "Template not found"
  | some t =>
    if env.sendOk businessId phone then
      match s.contacts.find? (fun c => c.businessId == businessId && c.phone == phone) with
      | none => Except.error "Contact not found"
      | some c =>
        Except.ok { s with
          messages := s.messages ++
            [{ id := s.nextMessageId, businessId := businessId, contactId := c.id,
               content := "Template: " ++ t.name, direction := "outbound" }],
          nextMessageId := s.nextMessageId + 1 }
    else Except.error "Failed to send template message"

/-- sendMessageAction from the automation executor. -/
def sendMessageAction (env : SendEnv) (businessId : Int) (message : String)
    (data : Payload) (s : St) : Except String St :=
  match getCid data with
  | none => Except.error "Contact ID required for send_message action"
  | some cid =>
    match s.contacts.find? (fun c => c.id == cid && c.businessId == businessId) with
    | none => Except.error "Contact not found"
    | some c => sendMessageWrapper env businessId c.phone message s

/-- sendTemplateAction from the automation executor. -/
def sendTemplateAction (env : SendEnv) (businessId : Int) (templateId : Int)
    (data : Payload) (s : St) : Except String St :=
  match getCid data with
  | none => Except.error "Contact ID required for send_template action"
  | some cid =>
    match s.contacts.find? (fun c => c.id == cid && c.businessId == businessId) with
    | none => Except.error "Contact not found"
    | some c => sendTemplateWrapper env businessId c.phone templateId s

/-- updateStageAction from the automation executor: a bare UPDATE of the stage
column of the contact; nothing else is touched. -/
def updateStageAction (contactId : Int) (stage : String) (s : St) : St :=
  { s with contacts := s.contacts.map (fun c =>
      if c.id == contactId then { c with stage := stage } else c) }

/-- addTagAction from the automation executor: insert the tag row unless one
with the same contact, tag and business already exists. -/
def addTagAction (contactId businessId : Int) (tag : String) (s : St) : St :=
  if s.contactTags.any (fun r =>
      r.contactId == contactId && r.tag == tag && r.businessId == businessId) then s
  else
    { s with contactTags := s.contactTags ++
        [{ businessId := businessId, contactId := contactId, tag := tag }] }

/-- The action switch of executeAction; an unknown action type only warns. -/
def doAction (env : SendEnv) (businessId : Int) (action : RuleAction)
    (data : Payload) (s : St) : Except String St :=
  match action with
  | RuleAction.sendMessage msg => sendMessageAction env businessId msg data s
  | RuleAction.sendTemplate tid => sendTemplateAction env businessId tid data s
  | RuleAction.updateStage stg =>
    match getCid data with
    | none => Except.error "Contact ID required for update_stage action"
    | some cid => Except.ok (updateStageAction cid stg s)
  | RuleAction.addTag tag =>
    match getCid data with
    | none => Except.error "Contact ID required for add_tag action"
    | some cid => Except.ok (addTagAction cid businessId tag s)
  | RuleAction.other _ => Except.ok s

/-- logExecution from the automation executor: append an automation_logs row
with the trigger data snapshot. -/
def logExecution (ruleId : Int) (contactId : Option Int) (status : String)
    (data : Payload) (errMsg : Option String) (s : St) : St :=
  { s with automationLogs := s.automationLogs ++
      [{ ruleId := ruleId, contactId := contactId, status := status,
         triggerData := data, errorMessage := errMsg }] }

/-- executeAction from the automation executor: run the action switch, then
log a success row; an exception propagates to the caller. -/
def executeAction (env : SendEnv) (rule : AutomationRule) (data : Payload)
    (s : St) : Except String St :=
  match doAction env rule.businessId rule.action data s with
  | Except.error e => Except.error e
  | Except.ok s1 => Except.ok (logExecution rule.id (getCid data) "success" data none s1)

/-- scheduleDelayedAction from the automation executor: delays are not
implemented, so after logging a warning the action executes immediately. -/
def scheduleDelayedAction (env : SendEnv) (rule : AutomationRule) (data : Payload)
    (s : St) : Except String St :=
  executeAction env rule data s

/-- The per-rule body of executeTrigger: evaluate the condition, run the
delayed or immediate path, and on an exception write a failed log row and
keep going. -/
def processRule (env : SendEnv) (rule : AutomationRule) (data : Payload)
    (s : St) : St :=
  if evaluateCondition rule.condition data then
    match (if 0 < rule.delayMinutes then scheduleDelayedAction env rule data s
           else executeAction env rule data s) with
    | Except.ok s1 => s1
    | Except.error e => logExecution rule.id (getCid data) "failed" data (some e) s
  else s

/-- The rule loop of executeTrigger over an already-fetched list of rules. -/
def runRules (env : SendEnv) (rules : List AutomationRule) (data : Payload)
    (s : St) : St :=
  match rules with
  | [] => s
  | r :: rest => runRules env rest data (processRule env r data s)

/-- data.business_id as used by findMatchingRules. -/
def getBiz (data : Payload) : Option Int :=
  match jsGet data "business_id" with
  | some (Value.vInt n) => some n
  | _ => none

/-- executeTrigger from the automation executor: fetch the rules of the
business for the trigger and run the rule loop. -/
def executeTrigger (env : SendEnv) (trigger : String) (data : Payload) (s : St) : St :=
  runRules env
    (s.automationRules.filter (fun r =>
      r.trigger == trigger && some r.businessId == getBiz data))
    data s

/-- One selected row of the sweep query of processPendingFollowUps, with the
aggregates the query computes for it. -/
structure SweepRow where
  id : Int
  businessId : Int
  phone : String
  name : Option String
  stage : String
  followupCount : Nat
  hoursSinceLastMessage : Nat
  deriving DecidableEq, Repr

/-- The per-contact body of the sweep loop of processPendingFollowUps: find
the stage rule, skip on max follow-ups or a too-recent message, otherwise
send the templated message and add the followup-sent tag.  A send failure
propagates as an error. -/
def stepRow (env : SendEnv) (row : SweepRow) (s : St) : Except String St :=
  match followUpRules.find? (fun r => r.stage == row.stage) with
  | none => Except.ok s
  | some rule =>
    if rule.maxFollowUps ≤ row.followupCount then Except.ok s
    else if rule.hoursAfterLastMessage ≤ row.hoursSinceLastMessage then
      match sendMessageWrapper env row.businessId row.phone
          (jsReplaceOnce rule.messageTemplate "{name}" (row.name.getD "there")) s with
      | Except.error e => Except.error e
      | Except.ok s1 => Except.ok (addContactTag row.id row.businessId "followup-sent" s1)
    else Except.ok s

/-- The sweep loop of processPendingFollowUps: the whole loop runs inside one
try block, so the first error ends the sweep with the state reached so far
(the catch only logs). -/
def runSweep (env : SendEnv) : List SweepRow → St → St
  | [], s => s
  | r :: rest, s =>
    match stepRow env r s with
    | Except.ok s1 => runSweep env rest s1
    | Except.error _ => s

/-- Number of contact_tags rows for one contact and tag. -/
def tagCount (s : St) (contactId : Int) (tag : String) : Nat :=
  (s.contactTags.filter (fun r => r.contactId == contactId && r.tag == tag)).length

/-- The set-semantics invariant of contact_tags: at most one row per contact
and tag pair. -/
def tagInvariant (s : St) : Prop :=
  ∀ contactId tag, tagCount s contactId tag ≤ 1

/-- The followup_count aggregate of the sweep query for one contact. -/
def followupCountOf (s : St) (contactId : Int) : Nat :=
  tagCount s contactId "followup-sent"

/-- The sweep body of processPendingFollowUps with the max-follow-ups guard
removed, used to state that the guard is unreachable. -/
def stepRowNoSkip (env : SendEnv) (row : SweepRow) (s : St) : Except String St :=
  match followUpRules.find? (fun r => r.stage == row.stage) with
  | none => Except.ok s
  | some rule =>
    if rule.hoursAfterLastMessage ≤ row.hoursSinceLastMessage then
      match sendMessageWrapper env row.businessId row.phone
          (jsReplaceOnce rule.messageTemplate "{name}" (row.name.getD "there")) s with
      | Except.error e => Except.error e
      | Except.ok s1 => Except.ok (addContactTag row.id row.businessId "followup-sent" s1)
    else Except.ok s

/-- An environment in which every provider send fails. -/
def envDeny : SendEnv := ⟨fun _ _ => false⟩

/-- An environment in which only sends to the second fixture phone succeed. -/
def envFailFirst : SendEnv := ⟨fun _ phone => phone == "15550002"⟩

/-- A two-contact fixture state for sweep scenarios. -/
def sweepState : St :=
  { contacts :=
      [{ id := 1, businessId := 1, phone := "15550001", name := none, stage := "New" },
       { id := 2, businessId := 1, phone := "15550002", name := none, stage := "New" }],
    messages := [], contactTags := [], pipelineHistory := [], automationRules := [],
    automationLogs := [], messageTemplates := [], nextRuleId := 0, nextMessageId := 0 }

/-- First selected sweep row of the fixture: due for a follow-up. -/
def rowOne : SweepRow :=
  { id := 1, businessId := 1, phone := "15550001", name := none, stage := "New",
    followupCount := 0, hoursSinceLastMessage := 30 }

/-- Second selected sweep row of the fixture: also due for a follow-up. -/
def rowTwo : SweepRow :=
  { id := 2, businessId := 1, phone := "15550002", name := none, stage := "New",
    followupCount := 0, hoursSinceLastMessage := 30 }

/-- The fixture contact of demoState. -/
def demoContact : Contact :=
  { id := 1, businessId := 1, phone := "15550001", name := some "Bob", stage := "Qualified" }

/-! ## Helper lemmas -/

theorem addContactTag_contacts (cid biz : Int) (tag : String) (s : St) :
    (addContactTag cid biz tag s).contacts = s.contacts := by
  unfold addContactTag; split <;> rfl

theorem addContactTag_automationRules (cid biz : Int) (tag : String) (s : St) :
    (addContactTag cid biz tag s).automationRules = s.automationRules := by
  unfold addContactTag; split <;> rfl

theorem updateContactStage_automationRules (cid biz : Int) (fr toS : String) (s : St) :
    (updateContactStage cid biz fr toS s).automationRules = s.automationRules := rfl

theorem tagCount_eq_zero_of_any_false (s : St) (cid : Int) (tag : String)
    (h : s.contactTags.any (fun r => r.contactId == cid && r.tag == tag) = false) :
    tagCount s cid tag = 0 := by
  unfold tagCount
  rw [List.length_eq_zero, List.filter_eq_nil_iff]
  intro a ha
  rw [List.any_eq_false] at h
  simpa using h a ha

theorem any_false_of_tagCount_eq_zero (s : St) (cid : Int) (tag : String)
    (h : tagCount s cid tag = 0) :
    s.contactTags.any (fun r => r.contactId == cid && r.tag == tag) = false := by
  unfold tagCount at h
  rw [List.length_eq_zero, List.filter_eq_nil_iff] at h
  rw [List.any_eq_false]
  intro a ha
  simpa using h a ha

/-! ## C2: classifier priority and word-boundary matching -/

/-- C2: deal classification is a case-insensitive word-boundary match against
three keyword sets in fixed priority order Won, Lost, NeedsFollowUp, with
Neutral when nothing matches; a text matching both a Won keyword and a
lower-priority keyword is Won, and a substring occurrence without word
boundaries does not match. -/
theorem classify_priority_spec :
    (∀ text : String,
      (containsKeywords (jsToLower text) dealClosedKeywords = true →
        classify text = DealStatus.Won) ∧
      (containsKeywords (jsToLower text) dealClosedKeywords = false →
        containsKeywords (jsToLower text) dealLostKeywords = true →
        classify text = DealStatus.Lost) ∧
      (containsKeywords (jsToLower text) dealClosedKeywords = false →
        containsKeywords (jsToLower text) dealLostKeywords = false →
        containsKeywords (jsToLower text) needsFollowUpKeywords = true →
        classify text = DealStatus.NeedsFollowUp) ∧
      (containsKeywords (jsToLower text) dealClosedKeywords = false →
        containsKeywords (jsToLower text) dealLostKeywords = false →
        containsKeywords (jsToLower text) needsFollowUpKeywords = false →
        classify text = DealStatus.Neutral)) ∧
    (containsKeywords "yes, let me think" dealClosedKeywords = true ∧
     containsKeywords "yes, let me think" needsFollowUpKeywords = true ∧
     classify "yes, let me think" = DealStatus.Won) ∧
    (jsIncludes "eyes" "yes" = true ∧ classify "eyes" = DealStatus.Neutral) := by
  refine ⟨fun text => ⟨?_, ?_, ?_, ?_⟩, ⟨by rfl, by rfl, by rfl⟩, ⟨by rfl, by rfl⟩⟩
  · intro h1; simp [classify, h1]
  · intro h1 h2; simp [classify, h1, h2]
  · intro h1 h2 h3; simp [classify, h1, h2, h3]
  · intro h1 h2 h3; simp [classify, h1, h2, h3]

theorem classify_priority_spec_witness :
    containsKeywords (jsToLower "yes") dealClosedKeywords = true ∧
    classify "yes" = DealStatus.Won :=
  ⟨by rfl, (classify_priority_spec.1 "yes").1 (by rfl)⟩

/-! ## C4: condition evaluation semantics -/

/-- C4: condition evaluation is the AND over the listed keys, each key matched
by literal equality or by a comparator over the recognized operator set; an
empty condition always matches; an unrecognized operator fails its key so the
rule does not fire; the concrete stage and amount examples behave as stated. -/
theorem evaluateCondition_spec :
    (∀ data : Payload, evaluateCondition [] data = true) ∧
    (∀ (c1 c2 : List (String × CondSpec)) (data : Payload),
      evaluateCondition (c1 ++ c2) data =
        (evaluateCondition c1 data && evaluateCondition c2 data)) ∧
    (∀ (key op : String) (v : Value) (rest : List (String × CondSpec)) (data : Payload),
      op ∉ (["equals", "not_equals", "contains", "greater_than", "less_than"] : List String) →
      evaluateCondition ((key, CondSpec.cmp op v) :: rest) data = false) ∧
    (evaluateCondition [("stage", CondSpec.cmp "equals" (Value.vStr "Won"))]
      [("stage", Value.vStr "Won")] = true) ∧
    (evaluateCondition [("stage", CondSpec.cmp "equals" (Value.vStr "Won"))]
      [("stage", Value.vStr "Lost")] = false) ∧
    (evaluateCondition [("amount", CondSpec.cmp "greater_than" (Value.vInt 100))]
      [("amount", Value.vInt 150)] = true) ∧
    (evaluateCondition [("amount", CondSpec.cmp "greater_than" (Value.vInt 100))]
      [("amount", Value.vInt 50)] = false) := by
  refine ⟨fun data => rfl, ?_, ?_, by rfl, by rfl, by rfl, by rfl⟩
  · intro c1 c2 data
    cases c1 with
    | nil => simp [evaluateCondition]
    | cons x xs =>
      cases c2 with
      | nil => simp [evaluateCondition]
      | cons y ys => simp [evaluateCondition, List.all_append, Bool.and_assoc]
  · intro key op v rest data h
    simp only [List.mem_cons, List.not_mem_nil, or_false, not_or] at h
    obtain ⟨h1, h2, h3, h4, h5⟩ := h
    simp [evaluateCondition, keyMatches, h1, h2, h3, h4, h5]

theorem evaluateCondition_spec_witness :
    ("between" ∉ (["equals", "not_equals", "contains", "greater_than", "less_than"] : List String)) ∧
    evaluateCondition [("x", CondSpec.cmp "between" (Value.vInt 1))] [] = false :=
  ⟨by decide, evaluateCondition_spec.2.2.1 "x" "between" (Value.vInt 1) [] [] (by decide)⟩

/-! ## C3: terminal stages never get a scheduled follow-up rule -/

theorem joinLookup_find (s : St) (mid : Int) (m : Msg) (c : Contact)
    (h : joinLookup s mid = some (m, c)) :
    s.contacts.find? (fun x => x.id == m.contactId) = some c ∧ c.id = m.contactId := by
  unfold joinLookup at h
  cases hm : s.messages.find? (fun x => x.id == mid) with
  | none => simp only [hm] at h; cases h
  | some m0 =>
    simp only [hm] at h
    cases hc : s.contacts.find? (fun x => x.id == m0.contactId) with
    | none => simp only [hc] at h; cases h
    | some c0 =>
      simp only [hc] at h
      injection h with h1
      injection h1 with e1 e2
      subst e1; subst e2
      refine ⟨hc, ?_⟩
      have hp := List.find?_some hc
      exact beq_iff_eq.mp hp

theorem scheduleFollowUp_terminal (cid biz : Int) (s : St) (c : Contact)
    (hf : s.contacts.find? (fun x => x.id == cid) = some c)
    (ht : c.stage = "Won" ∨ c.stage = "Lost") :
    scheduleFollowUp cid biz s = s := by
  unfold scheduleFollowUp
  rw [hf]
  rcases ht with h | h <;> simp only [h] <;> rfl

/-- C3: processing an inbound message for a contact whose stage is Won or
Lost never inserts a scheduled_followup automation rule: the automation_rules
table is unchanged whatever the message content. -/
theorem terminal_no_scheduled_rule :
    ∀ (s : St) (mid : Int) (m : Msg) (c : Contact),
      joinLookup s mid = some (m, c) →
      (c.stage = "Won" ∨ c.stage = "Lost") →
      (analyzeMessage s mid).automationRules = s.automationRules := by
  intro s mid m c hj ht
  obtain ⟨hf, hcid⟩ := joinLookup_find s mid m c hj
  have hf2 : s.contacts.find? (fun x => x.id == c.id) = some c := by
    rw [hcid]; exact hf
  unfold analyzeMessage
  rw [hj]
  by_cases hd : (m.direction == "outbound") = true
  · simp [hd]
  · simp only [Bool.not_eq_true] at hd
    simp only [hd, Bool.false_eq_true, if_false]
    cases hcl : classify m.content with
    | Won =>
      simp only [hcl]
      simp [addContactTag_automationRules, updateContactStage_automationRules]
    | Lost =>
      simp only [hcl]
      simp [addContactTag_automationRules, updateContactStage_automationRules]
    | NeedsFollowUp =>
      simp only [hcl]
      have hf3 : (addContactTag c.id c.businessId "needs-followup" s).contacts.find?
          (fun x => x.id == c.id) = some c := by
        rw [addContactTag_contacts]; exact hf2
      rw [show (if (none != some "Won" && none != some "Lost") = true then
            scheduleFollowUp c.id c.businessId (addContactTag c.id c.businessId "needs-followup" s)
          else addContactTag c.id c.businessId "needs-followup" s) =
          scheduleFollowUp c.id c.businessId (addContactTag c.id c.businessId "needs-followup" s)
        from by rfl]
      rw [scheduleFollowUp_terminal c.id c.businessId _ c hf3 ht]
      exact addContactTag_automationRules c.id c.businessId "needs-followup" s
    | Neutral =>
      simp only [hcl]
      rw [show (if (none != some "Won" && none != some "Lost") = true then
            scheduleFollowUp c.id c.businessId s else s) =
          scheduleFollowUp c.id c.businessId s from by rfl]
      rw [scheduleFollowUp_terminal c.id c.businessId s c hf2 ht]

theorem terminal_no_scheduled_rule_witness :
    joinLookup
      { contacts := [{ id := 3, businessId := 1, phone := "15550003", name := none, stage := "Won" }],
        messages := [{ id := 30, businessId := 1, contactId := 3, content := "maybe", direction := "inbound" }],
        contactTags := [], pipelineHistory := [], automationRules := [],
        automationLogs := [], messageTemplates := [], nextRuleId := 0, nextMessageId := 0 } 30 =
      some ({ id := 30, businessId := 1, contactId := 3, content := "maybe", direction := "inbound" },
            { id := 3, businessId := 1, phone := "15550003", name := none, stage := "Won" }) ∧
    (analyzeMessage
      { contacts := [{ id := 3, businessId := 1, phone := "15550003", name := none, stage := "Won" }],
        messages := [{ id := 30, businessId := 1, contactId := 3, content := "maybe", direction := "inbound" }],
        contactTags := [], pipelineHistory := [], automationRules := [],
        automationLogs := [], messageTemplates := [], nextRuleId := 0, nextMessageId := 0 } 30).automationRules =
    ([] : List AutomationRule) :=
  ⟨by rfl,
   terminal_no_scheduled_rule _ 30
     { id := 30, businessId := 1, contactId := 3, content := "maybe", direction := "inbound" }
     { id := 3, businessId := 1, phone := "15550003", name := none, stage := "Won" }
     (by rfl) (Or.inl rfl)⟩

/-! ## C5: the think-about-it scenario -/

/-- C5 counterexample: the message is classified Neutral, not NeedsFollowUp,
and no needs-followup tag is added. -/
theorem think_message_counterexample :
    classify "I need to think about it" = DealStatus.Neutral ∧
    (analyzeMessage demoState 10).contactTags = [] :=
  ⟨by rfl, by rfl⟩

/-- C5 amended: the inbound message for the Qualified contact is classified
Neutral, no tag is added and no stage change happens, yet a one-shot
scheduled_followup rule with delay_minutes 24 times 60 is still created,
because scheduling runs for every non-Won, non-Lost outcome. -/
theorem think_message_amended :
    classify "I need to think about it" = DealStatus.Neutral ∧
    (analyzeMessage demoState 10).contactTags = demoState.contactTags ∧
    (analyzeMessage demoState 10).pipelineHistory = demoState.pipelineHistory ∧
    (analyzeMessage demoState 10).contacts = demoState.contacts ∧
    (analyzeMessage demoState 10).automationRules =
      demoState.automationRules ++
        [{ id := 100, businessId := 1, trigger := "scheduled_followup",
           condition := [("contact_id", CondSpec.lit (Value.vInt 1))],
           action := RuleAction.sendMessage
             "Hi Bob! Just checking in. Do you have any questions about moving forward?",
           delayMinutes := 24 * 60 }] :=
  ⟨by rfl, by rfl, by rfl, by rfl, by rfl⟩

/-! ## C6: delayed path equals immediate path -/

/-- C6: when a rule matches, a positive delay_minutes changes nothing but the
logged warning: the delayed path executes the action immediately, so the
resulting state equals the one of the same rule with delay_minutes 0. -/
theorem delayed_equals_immediate :
    ∀ (env : SendEnv) (rule : AutomationRule) (data : Payload) (s : St) (d : Nat),
      0 < d → evaluateCondition rule.condition data = true →
      processRule env { rule with delayMinutes := d } data s =
      processRule env { rule with delayMinutes := 0 } data s := by
  intro env rule data s d hd hc
  unfold processRule scheduleDelayedAction
  simp only [hc, if_true]
  rw [if_pos hd, if_neg (lt_irrefl 0)]
  rfl

theorem delayed_equals_immediate_witness :
    0 < 5 ∧
    evaluateCondition ([] : List (String × CondSpec)) ([] : Payload) = true ∧
    processRule ⟨fun _ _ => true⟩
      { id := 1, businessId := 1, trigger := "t", condition := [],
        action := RuleAction.other "noop", delayMinutes := 5 } [] demoState =
    processRule ⟨fun _ _ => true⟩
      { id := 1, businessId := 1, trigger := "t", condition := [],
        action := RuleAction.other "noop", delayMinutes := 0 } [] demoState :=
  ⟨by decide, by rfl,
   delayed_equals_immediate ⟨fun _ _ => true⟩
     { id := 1, businessId := 1, trigger := "t", condition := [],
       action := RuleAction.other "noop", delayMinutes := 0 } [] demoState 5
     (by decide) (by rfl)⟩

/-! ## C1: a send failure aborts the sweep -/

/-- C1 counterexample: with two due contacts and a provider that rejects the
first send, the sweep ends at the first contact with the state unchanged;
the second contact was due (processing it alone would send and tag), yet the
finished sweep has sent it nothing and tagged it with nothing. -/
theorem sweep_failure_counterexample :
    runSweep envFailFirst [rowOne, rowTwo] sweepState = sweepState ∧
    stepRow envFailFirst rowOne sweepState = Except.error "Failed to send message" ∧
    stepRow envFailFirst rowTwo sweepState =
      Except.ok (addContactTag 2 1 "followup-sent"
        { sweepState with
            messages := [{ id := 0, businessId := 1, contactId := 2,
                           content := "Hi there! Just following up on our conversation. Is there anything I can help you with?",
                           direction := "outbound" }],
            nextMessageId := 1 }) ∧
    (runSweep envFailFirst [rowOne, rowTwo] sweepState).messages = [] ∧
    tagCount (runSweep envFailFirst [rowOne, rowTwo] sweepState) 2 "followup-sent" = 0 :=
  ⟨by rfl, by rfl, by rfl, by rfl, by rfl⟩

/-- C1 amended: a failed send for one contact ends the sweep at that contact:
the error propagates to the single try block around the loop, so the
remaining selected contacts are not evaluated in that sweep and the state
stays as reached so far. -/
theorem sweep_aborts_on_failure :
    ∀ (env : SendEnv) (row : SweepRow) (rest : List SweepRow) (s : St) (e : String),
      stepRow env row s = Except.error e →
      runSweep env (row :: rest) s = s := by
  intro env row rest s e h
  simp only [runSweep, h]

theorem sweep_aborts_on_failure_witness :
    stepRow envFailFirst rowOne sweepState = Except.error "Failed to send message" ∧
    runSweep envFailFirst (rowOne :: [rowTwo]) sweepState = sweepState :=
  ⟨by rfl,
   sweep_aborts_on_failure envFailFirst rowOne [rowTwo] sweepState
     "Failed to send message" (by rfl)⟩

/-! ## C7: one log row per matched rule, failures do not stop the dispatch -/

theorem addTagAction_automationLogs (cid biz : Int) (tag : String) (s : St) :
    (addTagAction cid biz tag s).automationLogs = s.automationLogs := by
  unfold addTagAction; split <;> rfl

theorem doAction_automationLogs (env : SendEnv) (biz : Int) (a : RuleAction)
    (data : Payload) (s s1 : St)
    (h : doAction env biz a data s = Except.ok s1) :
    s1.automationLogs = s.automationLogs := by
  cases a with
  | sendMessage msg =>
    simp only [doAction, sendMessageAction, sendMessageWrapper] at h
    repeat' split at h
    all_goals first
      | (injection h with h2; subst h2; rfl)
      | injection h
  | sendTemplate tid =>
    simp only [doAction, sendTemplateAction, sendTemplateWrapper] at h
    repeat' split at h
    all_goals first
      | (injection h with h2; subst h2; rfl)
      | injection h
  | updateStage stg =>
    simp only [doAction] at h
    repeat' split at h
    all_goals first
      | (injection h with h2; subst h2; rfl)
      | injection h
  | addTag tag =>
    simp only [doAction] at h
    repeat' split at h
    all_goals first
      | (injection h with h2; subst h2; exact addTagAction_automationLogs _ _ _ _)
      | injection h
  | other t =>
    simp only [doAction] at h
    injection h with h2; subst h2; rfl

theorem processRule_delay_collapse (env : SendEnv) (rule : AutomationRule)
    (data : Payload) (s : St) :
    (if 0 < rule.delayMinutes then scheduleDelayedAction env rule data s
     else executeAction env rule data s) = executeAction env rule data s := by
  split <;> rfl

theorem processRule_matched_ok (env : SendEnv) (rule : AutomationRule)
    (data : Payload) (s s1 : St)
    (hc : evaluateCondition rule.condition data = true)
    (hA : doAction env rule.businessId rule.action data s = Except.ok s1) :
    processRule env rule data s =
      logExecution rule.id (getCid data) "success" data none s1 := by
  unfold processRule
  simp only [hc, if_true]
  rw [processRule_delay_collapse]
  unfold executeAction
  rw [hA]

theorem processRule_matched_err (env : SendEnv) (rule : AutomationRule)
    (data : Payload) (s : St) (e : String)
    (hc : evaluateCondition rule.condition data = true)
    (hA : doAction env rule.businessId rule.action data s = Except.error e) :
    processRule env rule data s =
      logExecution rule.id (getCid data) "failed" data (some e) s := by
  unfold processRule
  simp only [hc, if_true]
  rw [processRule_delay_collapse]
  unfold executeAction
  rw [hA]

theorem processRule_unmatched (env : SendEnv) (rule : AutomationRule)
    (data : Payload) (s : St)
    (hc : evaluateCondition rule.condition data = false) :
    processRule env rule data s = s := by
  unfold processRule
  simp [hc]

theorem processRule_logs_length (env : SendEnv) (rule : AutomationRule)
    (data : Payload) (s : St) :
    (processRule env rule data s).automationLogs.length =
      s.automationLogs.length +
        (if evaluateCondition rule.condition data then 1 else 0) := by
  cases hc : evaluateCondition rule.condition data with
  | false => rw [processRule_unmatched env rule data s hc]; simp
  | true =>
    cases hA : doAction env rule.businessId rule.action data s with
    | error e =>
      rw [processRule_matched_err env rule data s e hc hA]
      simp [logExecution]
    | ok s1 =>
      rw [processRule_matched_ok env rule data s s1 hc hA]
      have hL := doAction_automationLogs env rule.businessId rule.action data s s1 hA
      simp [logExecution, hL]

theorem runRules_logs_length (env : SendEnv) (rules : List AutomationRule)
    (data : Payload) :
    ∀ s : St, (runRules env rules data s).automationLogs.length =
      s.automationLogs.length +
        (rules.filter (fun r => evaluateCondition r.condition data)).length := by
  induction rules with
  | nil => intro s; rfl
  | cons r rest ih =>
    intro s
    show (runRules env rest data (processRule env r data s)).automationLogs.length = _
    rw [ih (processRule env r data s), processRule_logs_length]
    cases hc : evaluateCondition r.condition data
    · simp [List.filter_cons, hc]
    · simp [List.filter_cons, hc]
      omega

/-- C7: in one dispatch, a matched rule whose action succeeds appends exactly
one success log row with the payload snapshot, a matched rule whose action
raises appends exactly one failed log row with the error message and leaves
the rest of the state alone, the loop continues to the remaining rules in
both cases, and in total there is exactly one log row per matched rule. -/
theorem dispatch_logging_spec :
    (∀ (env : SendEnv) (rule : AutomationRule) (data : Payload) (s s1 : St),
      evaluateCondition rule.condition data = true →
      doAction env rule.businessId rule.action data s = Except.ok s1 →
      (processRule env rule data s).automationLogs =
        s.automationLogs ++
          [{ ruleId := rule.id, contactId := getCid data, status := "success",
             triggerData := data, errorMessage := none }]) ∧
    (∀ (env : SendEnv) (rule : AutomationRule) (data : Payload) (s : St) (e : String),
      evaluateCondition rule.condition data = true →
      doAction env rule.businessId rule.action data s = Except.error e →
      processRule env rule data s =
        logExecution rule.id (getCid data) "failed" data (some e) s) ∧
    (∀ (env : SendEnv) (r : AutomationRule) (rest : List AutomationRule)
       (data : Payload) (s : St),
      runRules env (r :: rest) data s = runRules env rest data (processRule env r data s)) ∧
    (∀ (env : SendEnv) (rules : List AutomationRule) (data : Payload) (s : St),
      (runRules env rules data s).automationLogs.length =
        s.automationLogs.length +
          (rules.filter (fun r => evaluateCondition r.condition data)).length) := by
  refine ⟨?_, ?_, fun env r rest data s => rfl,
    fun env rules data s => runRules_logs_length env rules data s⟩
  · intro env rule data s s1 hc hA
    rw [processRule_matched_ok env rule data s s1 hc hA]
    have hL := doAction_automationLogs env rule.businessId rule.action data s s1 hA
    simp [logExecution, hL]
  · intro env rule data s e hc hA
    exact processRule_matched_err env rule data s e hc hA

theorem dispatch_logging_spec_witness :
    evaluateCondition ([] : List (String × CondSpec)) [("contact_id", Value.vInt 1)] = true ∧
    doAction envDeny 1 (RuleAction.addTag "vip") [("contact_id", Value.vInt 1)] demoState =
      Except.ok (addTagAction 1 1 "vip" demoState) ∧
    (processRule envDeny
        { id := 2, businessId := 1, trigger := "t", condition := [],
          action := RuleAction.addTag "vip", delayMinutes := 0 }
        [("contact_id", Value.vInt 1)] demoState).automationLogs =
      demoState.automationLogs ++
        [{ ruleId := 2, contactId := getCid [("contact_id", Value.vInt 1)],
           status := "success", triggerData := [("contact_id", Value.vInt 1)],
           errorMessage := none }] ∧
    doAction envDeny 1 (RuleAction.sendMessage "hi") [("contact_id", Value.vInt 1)] demoState =
      Except.error "Failed to send message" ∧
    processRule envDeny
        { id := 3, businessId := 1, trigger := "t", condition := [],
          action := RuleAction.sendMessage "hi", delayMinutes := 0 }
        [("contact_id", Value.vInt 1)] demoState =
      logExecution 3 (getCid [("contact_id", Value.vInt 1)]) "failed"
        [("contact_id", Value.vInt 1)] (some "Failed to send message") demoState :=
  ⟨by rfl, by rfl,
   dispatch_logging_spec.1 envDeny
     { id := 2, businessId := 1, trigger := "t", condition := [],
       action := RuleAction.addTag "vip", delayMinutes := 0 }
     [("contact_id", Value.vInt 1)] demoState (addTagAction 1 1 "vip" demoState)
     (by rfl) (by rfl),
   by rfl,
   dispatch_logging_spec.2.1 envDeny
     { id := 3, businessId := 1, trigger := "t", condition := [],
       action := RuleAction.sendMessage "hi", delayMinutes := 0 }
     [("contact_id", Value.vInt 1)] demoState "Failed to send message"
     (by rfl) (by rfl)⟩

/-! ## C8: update_stage action frame -/

/-- C8: the update_stage action only rewrites the stage field of the targeted
contact: every other table and counter is untouched, every other contact and
every other field of the targeted contact is preserved, and in particular no
pipeline_history row is written, unlike the classifier stage-change path,
which appends exactly one. -/
theorem update_stage_frame :
    ∀ (s : St) (cid : Int) (stg : String),
      (updateStageAction cid stg s).pipelineHistory = s.pipelineHistory ∧
      (updateStageAction cid stg s).contactTags = s.contactTags ∧
      (updateStageAction cid stg s).messages = s.messages ∧
      (updateStageAction cid stg s).automationRules = s.automationRules ∧
      (updateStageAction cid stg s).automationLogs = s.automationLogs ∧
      (updateStageAction cid stg s).messageTemplates = s.messageTemplates ∧
      (updateStageAction cid stg s).nextRuleId = s.nextRuleId ∧
      (updateStageAction cid stg s).nextMessageId = s.nextMessageId ∧
      (∀ c ∈ (updateStageAction cid stg s).contacts, ∃ c0 ∈ s.contacts,
        c.id = c0.id ∧ c.businessId = c0.businessId ∧ c.phone = c0.phone ∧
        c.name = c0.name ∧ (c0.id ≠ cid → c.stage = c0.stage) ∧
        (c0.id = cid → c.stage = stg)) ∧
      (∀ (cid2 biz : Int) (fr toS : String) (s2 : St),
        (updateContactStage cid2 biz fr toS s2).pipelineHistory =
          s2.pipelineHistory ++
            [{ businessId := biz, contactId := cid2, fromStage := fr, toStage := toS }]) := by
  intro s cid stg
  refine ⟨rfl, rfl, rfl, rfl, rfl, rfl, rfl, rfl, ?_, fun _ _ _ _ _ => rfl⟩
  intro c hc
  unfold updateStageAction at hc
  simp only [List.mem_map] at hc
  obtain ⟨a, ha, hEq⟩ := hc
  by_cases h : a.id = cid
  · rw [if_pos (beq_iff_eq.mpr h)] at hEq
    subst hEq
    exact ⟨a, ha, rfl, rfl, rfl, rfl, fun hn => absurd h hn, fun _ => rfl⟩
  · rw [if_neg (by simpa using h)] at hEq
    subst hEq
    exact ⟨a, ha, rfl, rfl, rfl, rfl, fun _ => rfl, fun he => absurd he h⟩

theorem update_stage_frame_witness :
    (updateStageAction 5 "Won" demoState).pipelineHistory = demoState.pipelineHistory ∧
    demoContact ∈ (updateStageAction 5 "Won" demoState).contacts ∧
    (∃ c0 ∈ demoState.contacts,
      demoContact.id = c0.id ∧ demoContact.businessId = c0.businessId ∧
      demoContact.phone = c0.phone ∧ demoContact.name = c0.name ∧
      (c0.id ≠ 5 → demoContact.stage = c0.stage) ∧
      (c0.id = 5 → demoContact.stage = "Won")) :=
  ⟨(update_stage_frame demoState 5 "Won").1,
   by decide,
   (update_stage_frame demoState 5 "Won").2.2.2.2.2.2.2.2.1 demoContact (by decide)⟩

/-! ## C9: tag insertion idempotence -/

theorem addContactTag_idem (cid biz : Int) (tag : String) (s : St) :
    addContactTag cid biz tag (addContactTag cid biz tag s) =
      addContactTag cid biz tag s := by
  by_cases h : s.contactTags.any (fun r => r.contactId == cid && r.tag == tag) = true
  · simp [addContactTag, h]
  · simp only [Bool.not_eq_true] at h
    simp [addContactTag, h, List.any_append]

theorem addTagAction_idem (cid biz : Int) (tag : String) (s : St) :
    addTagAction cid biz tag (addTagAction cid biz tag s) =
      addTagAction cid biz tag s := by
  by_cases h : s.contactTags.any (fun r =>
      r.contactId == cid && r.tag == tag && r.businessId == biz) = true
  · simp [addTagAction, h]
  · simp only [Bool.not_eq_true] at h
    simp [addTagAction, h, List.any_append]

theorem addContactTag_fresh (cid biz : Int) (tag : String) (s : St)
    (h : tagCount s cid tag = 0) :
    tagCount (addContactTag cid biz tag s) cid tag = 1 := by
  have hany := any_false_of_tagCount_eq_zero s cid tag h
  unfold addContactTag
  simp only [hany, Bool.false_eq_true, if_false]
  unfold tagCount at h ⊢
  simp [List.filter_append, h]

theorem addTagAction_fresh (cid biz : Int) (tag : String) (s : St)
    (h : tagCount s cid tag = 0) :
    tagCount (addTagAction cid biz tag s) cid tag = 1 := by
  have hany := any_false_of_tagCount_eq_zero s cid tag h
  have hany3 : s.contactTags.any (fun r =>
      r.contactId == cid && r.tag == tag && r.businessId == biz) = false := by
    rw [List.any_eq_false] at hany ⊢
    intro a ha
    have h2 := hany a ha
    intro hcon
    simp only [Bool.and_eq_true] at hcon
    exact h2 (by rw [hcon.1.1, hcon.1.2]; rfl)
  unfold addTagAction
  simp only [hany3, Bool.false_eq_true, if_false]
  unfold tagCount at h ⊢
  simp [List.filter_append, h]

/-- C9: tag insertion is idempotent via both the scheduler path and the rule
engine path: a second identical call changes nothing, and starting from a
state with no row for the pair, two calls leave exactly one row. -/
theorem tag_insert_idempotent :
    (∀ (cid biz : Int) (tag : String) (s : St),
      addContactTag cid biz tag (addContactTag cid biz tag s) =
        addContactTag cid biz tag s) ∧
    (∀ (cid biz : Int) (tag : String) (s : St),
      addTagAction cid biz tag (addTagAction cid biz tag s) =
        addTagAction cid biz tag s) ∧
    (∀ (cid biz : Int) (tag : String) (s : St), tagCount s cid tag = 0 →
      tagCount (addContactTag cid biz tag (addContactTag cid biz tag s)) cid tag = 1) ∧
    (∀ (cid biz : Int) (tag : String) (s : St), tagCount s cid tag = 0 →
      tagCount (addTagAction cid biz tag (addTagAction cid biz tag s)) cid tag = 1) := by
  refine ⟨addContactTag_idem, addTagAction_idem, ?_, ?_⟩
  · intro cid biz tag s h
    rw [addContactTag_idem]
    exact addContactTag_fresh cid biz tag s h
  · intro cid biz tag s h
    rw [addTagAction_idem]
    exact addTagAction_fresh cid biz tag s h

theorem tag_insert_idempotent_witness :
    tagCount sweepState 2 "vip" = 0 ∧
    tagCount (addContactTag 2 1 "vip" (addContactTag 2 1 "vip" sweepState)) 2 "vip" = 1 ∧
    tagCount (addTagAction 2 1 "vip" (addTagAction 2 1 "vip" sweepState)) 2 "vip" = 1 :=
  ⟨by rfl,
   tag_insert_idempotent.2.2.1 2 1 "vip" sweepState (by rfl),
   tag_insert_idempotent.2.2.2 2 1 "vip" sweepState (by rfl)⟩

/-! ## C10: the sweep max-attempts guard is unreachable -/

theorem addContactTag_tagInvariant (cid biz : Int) (tag : String) (s : St)
    (h : tagInvariant s) : tagInvariant (addContactTag cid biz tag s) := by
  intro cid2 tag2
  by_cases hany : s.contactTags.any (fun r => r.contactId == cid && r.tag == tag) = true
  · unfold addContactTag
    simp only [hany, if_true]
    exact h cid2 tag2
  · simp only [Bool.not_eq_true] at hany
    unfold addContactTag
    simp only [hany, Bool.false_eq_true, if_false]
    unfold tagCount
    simp only [List.filter_append, List.length_append]
    by_cases hmatch : cid2 = cid ∧ tag2 = tag
    · obtain ⟨e1, e2⟩ := hmatch
      subst e1; subst e2
      have h0 := tagCount_eq_zero_of_any_false s cid2 tag2 hany
      unfold tagCount at h0
      rw [h0]
      simp
    · have hne : ¬ (cid = cid2 ∧ tag = tag2) :=
        fun hpair => hmatch ⟨hpair.1.symm, hpair.2.symm⟩
      have hp : (({ businessId := biz, contactId := cid, tag := tag } : TagRow).contactId == cid2 &&
          ({ businessId := biz, contactId := cid, tag := tag } : TagRow).tag == tag2) = false := by
        by_cases e1 : cid = cid2
        · by_cases e2 : tag = tag2
          · exact absurd ⟨e1, e2⟩ hne
          · simp [e2]
        · simp [e1]
      have hrow : (List.filter (fun r => r.contactId == cid2 && r.tag == tag2)
          [({ businessId := biz, contactId := cid, tag := tag } : TagRow)]).length = 0 := by
        simp [List.filter_cons, hp]
      rw [hrow]
      have := h cid2 tag2
      unfold tagCount at this
      omega

/-- C10: addContactTag preserves the one-row-per-pair invariant, under that
invariant the followup_count the sweep query derives from followup-sent tags
is at most 1, every built-in follow-up rule allows at least 2 attempts, so
the count never reaches rule.maxFollowUps and the sweep body behaves exactly
like the same body with the max-attempts guard removed. -/
theorem followup_count_cap :
    (∀ (cid biz : Int) (tag : String) (s : St),
      tagInvariant s → tagInvariant (addContactTag cid biz tag s)) ∧
    (∀ (s : St) (cid : Int), tagInvariant s → followupCountOf s cid ≤ 1) ∧
    (∀ r ∈ followUpRules, 2 ≤ r.maxFollowUps) ∧
    (∀ (s : St) (cid : Int) (r : FollowUpRule),
      tagInvariant s → r ∈ followUpRules →
      ¬ (r.maxFollowUps ≤ followupCountOf s cid)) ∧
    (∀ (env : SendEnv) (row : SweepRow) (s : St),
      tagInvariant s → row.followupCount = followupCountOf s row.id →
      stepRow env row s = stepRowNoSkip env row s) := by
  have hrules : ∀ r ∈ followUpRules, 2 ≤ r.maxFollowUps := by decide
  refine ⟨addContactTag_tagInvariant, ?_, hrules, ?_, ?_⟩
  · intro s cid h
    exact h cid "followup-sent"
  · intro s cid r hinv hmem
    have h1 : followupCountOf s cid ≤ 1 := hinv cid "followup-sent"
    have h2 := hrules r hmem
    omega
  · intro env row s hinv hcount
    cases hr : followUpRules.find? (fun r => r.stage == row.stage) with
    | none => unfold stepRow stepRowNoSkip; rw [hr]
    | some rule =>
      have hmem : rule ∈ followUpRules := List.mem_of_find?_eq_some hr
      have hmax := hrules rule hmem
      have hle : followupCountOf s row.id ≤ 1 := hinv row.id "followup-sent"
      have hn : ¬ (rule.maxFollowUps ≤ row.followupCount) := by
        rw [hcount]; unfold followupCountOf at hle ⊢; omega
      unfold stepRow stepRowNoSkip
      rw [hr]
      dsimp only
      rw [if_neg hn]

theorem followup_count_cap_witness :
    rowOne.followupCount = followupCountOf sweepState rowOne.id ∧
    stepRow envFailFirst rowOne sweepState = stepRowNoSkip envFailFirst rowOne sweepState :=
  ⟨by rfl,
   followup_count_cap.2.2.2.2 envFailFirst rowOne sweepState
     (by intro cid tag; simp [tagCount, sweepState]) (by rfl)⟩
